import Mathlib

/-!
Verification of the shill `Throttler` component (`src/shill/throttler.cc`).

The Throttler drives the external `/sbin/tc` tool over a stdin pipe, one
network interface at a time, chaining to the next queued interface when the
previous process exits.  This file gives a shallow embedding of the component:

* command template expansion (`base::ReplaceSubstringsAfterOffset`,
  `base::UintToString`) over `List Char`;
* the mutable object state (`Throttler`'s `tc_pid_`, `tc_commands_`,
  `tc_current_interface_`, `tc_interfaces_to_throttle_`, `callback_`,
  `desired_*` members) as a structure, with every member function translated
  to an explicit state-passing function;
* externally supplied results (the spawned pid, the result of
  `SetFdNonBlocking`) as an explicit environment;
* `CHECK` failures as `Option.none` (process abort);
* observable effects (process spawn, callback invocation, observed process
  exit) as an event trace.

Machine integers (`uint32_t`) are modelled as `Nat` with explicit wrap-around
`% 2 ^ 32` where the source multiplies.
-/

namespace ShillThrottler

/-- One scanning step bound by fuel.  `replaceAllFuel fuel pat repl s` scans
`s` left to right; at a position where `pat` is a prefix it emits `repl` and
continues after the matched occurrence (the replacement text is never
rescanned), otherwise it copies one character.  This is the behaviour of
`base::ReplaceSubstringsAfterOffset(&s, 0, pat, repl)`.  Each step consumes at
least one character of `s`, so fuel `s.length` always suffices. -/
def replaceAllFuel : Nat → List Char → List Char → List Char → List Char
  | 0, _, _, s => s
  | _ + 1, _, _, [] => []
  | fuel + 1, pat, repl, c :: rest =>
    if (!pat.isEmpty && pat.isPrefixOf (c :: rest)) = true then
      repl ++ replaceAllFuel fuel pat repl ((c :: rest).drop pat.length)
    else
      c :: replaceAllFuel fuel pat repl rest

/-- Embedding of `base::ReplaceSubstringsAfterOffset` with offset 0:
replace every (non-overlapping, left-to-right) occurrence of `pat` in `s`
by `repl`. -/
def replaceAll (pat repl s : List Char) : List Char :=
  replaceAllFuel s.length pat repl s

/-- Whether `pat` occurs as a contiguous substring of `s`. -/
def occursIn (pat : List Char) : List Char → Bool
  | [] => pat.isEmpty
  | c :: rest => pat.isPrefixOf (c :: rest) || occursIn pat rest

/-- The decimal digit character for `d % 10`-style arguments. -/
def decChar : Nat → Char
  | 0 => '0'
  | 1 => '1'
  | 2 => '2'
  | 3 => '3'
  | 4 => '4'
  | 5 => '5'
  | 6 => '6'
  | 7 => '7'
  | 8 => '8'
  | _ => '9'

/-- Digit accumulation for the decimal printer, bounded by fuel; each step
peels the least significant digit. -/
def decimalFuel : Nat → Nat → List Char → List Char
  | 0, _, acc => acc
  | _ + 1, 0, acc => acc
  | fuel + 1, n + 1, acc =>
    decimalFuel fuel ((n + 1) / 10) (decChar ((n + 1) % 10) :: acc)

/-- Embedding of `base::UintToString` on the `uint32_t` domain: the usual
decimal representation.  Fuel 32 is enough for any number below `10 ^ 32`,
in particular for every `uint32_t` value. -/
def decimal (n : Nat) : List Char :=
  if n = 0 then [('0' : Char)] else decimalFuel 32 n []

/-- The `${INTERFACE}` placeholder (`kTemplateInterface`). -/
def kTemplateInterface : List Char := ("${INTERFACE}").toList

/-- The `${ULRATE}` placeholder (`kTemplateULRate`). -/
def kTemplateULRate : List Char := ("${ULRATE}").toList

/-- The `${DLRATE}` placeholder (`kTemplateDLRate`). -/
def kTemplateDLRate : List Char := ("${DLRATE}").toList

/-- The `${BURST}` placeholder (`kTemplateBurst`). -/
def kTemplateBurst : List Char := ("${BURST}").toList

/-- `Throttler::kTCCleanUpCmds`. -/
def kTCCleanUpCmds : List (List Char) :=
  [("qdisc del dev ${INTERFACE} root\n").toList,
   ("qdisc del dev ${INTERFACE} ingress\n").toList]

/-- `Throttler::kTCThrottleUplinkCmds` (the third entry is the juxtaposition
of two C string literals in the source). -/
def kTCThrottleUplinkCmds : List (List Char) :=
  [("qdisc add dev ${INTERFACE} root handle 1: htb default 11\n").toList,
   ("class add dev ${INTERFACE} parent 1: classid 1:1 htb rate ${ULRATE}\n").toList,
   ("class add dev ${INTERFACE} parent 1:1 classid 1:11 htb rate " ++
    "${ULRATE} prio 0 quantum 300\n").toList]

/-- `Throttler::kTCThrottleDownlinkCmds` (the second entry is the
juxtaposition of four C string literals; note the double space between
"all" and "prio"). -/
def kTCThrottleDownlinkCmds : List (List Char) :=
  [("qdisc add dev ${INTERFACE} handle ffff: ingress\n").toList,
   ("filter add dev ${INTERFACE} parent ffff: protocol all " ++
    " prio 50 u32 match ip" ++
    " src 0.0.0.0/0 police rate ${DLRATE} burst ${BURST}k mtu 66000" ++
    " drop flowid :1\n").toList]

/-- The command list assembled by `Throttler::Throttle` for one interface:
clean-up commands always, uplink commands when `upload_rate_kbits` is
nonzero, downlink commands when `download_rate_kbits` is nonzero, each with
the placeholders substituted in the source's order (interface first, then the
rate, then for downlink the burst).  The uplink/downlink rate substitution is
`UintToString(rate) + "kbit"`; the burst is `UintToString(rate * 2)` where
the multiplication is `uint32_t` arithmetic, hence the `% 2 ^ 32`. -/
def buildThrottleCommands (iface : List Char) (ul dl : Nat) : List (List Char) :=
  (kTCCleanUpCmds.map (fun c => replaceAll kTemplateInterface iface c))
  ++ (if ul ≠ 0 then
        kTCThrottleUplinkCmds.map (fun c =>
          replaceAll kTemplateULRate (decimal ul ++ ("kbit").toList)
            (replaceAll kTemplateInterface iface c))
      else [])
  ++ (if dl ≠ 0 then
        kTCThrottleDownlinkCmds.map (fun c =>
          replaceAll kTemplateBurst (decimal ((dl * 2) % (2 ^ 32)))
            (replaceAll kTemplateDLRate (decimal dl ++ ("kbit").toList)
              (replaceAll kTemplateInterface iface c)))
      else [])

/-- Modelled from the spec: the `shill::Error::Type` values the Throttler
uses for its completion callback (`error.h` is not part of the sources;
the taxonomy is the one in the spec's error-handling section). -/
inductive ErrType where
  | success
  | operationFailed
  | invalidArguments
  | wrongState
deriving DecidableEq

/-- Modelled from the spec: the results the external collaborators hand back
during one `StartTCForCommands` invocation — the pid returned by the process
spawner (`StartProcessInMinijailWithPipes`) and whether
`FileIO::SetFdNonBlocking` on the child's stdin pipe reported failure
(nonzero return). -/
structure Env where
  pid : Nat
  fdNonBlockFail : Bool
deriving DecidableEq

/-- Observable effects of the Throttler: a process spawn (with the command
batch handed to it), an observed process exit, and a completion-callback
invocation carrying the populated error. -/
inductive TCEvent where
  | spawn (pid : Nat) (commands : List (List Char))
  | exited (status : Int)
  | cbRun (cb : Nat) (etype : ErrType) (message : List Char)
deriving DecidableEq

/-- The mutable members of `Throttler` (declared in `throttler.h`, mutated in
`throttler.cc`).  Callbacks are identified by an opaque `Nat` tag; a null
`ResultCallback` is `none`.  `tc_pid_` is 0 when no process is in flight. -/
structure ThrottlerState where
  tc_pid : Nat
  tc_commands : List (List Char)
  tc_current_interface : List Char
  tc_interfaces_to_throttle : List (List Char)
  callback : Option Nat
  desired_throttling_enabled : Bool
  desired_upload_rate_kbits : Nat
  desired_download_rate_kbits : Nat
deriving DecidableEq

/-- The state of a freshly constructed `Throttler` (constructor sets
`tc_pid_(0)`; containers start empty, the callback null, no throttling
desired). -/
def initState : ThrottlerState :=
  { tc_pid := 0
    tc_commands := []
    tc_current_interface := []
    tc_interfaces_to_throttle := []
    callback := none
    desired_throttling_enabled := false
    desired_upload_rate_kbits := 0
    desired_download_rate_kbits := 0 }

/-- `Throttler::ClearTCState`: zero the pid, clear the command list, current
interface and interface queue, reset the callback.  The `desired_*` members
are not touched. -/
def clearTCState (s : ThrottlerState) : ThrottlerState :=
  { s with
    tc_pid := 0
    tc_commands := []
    tc_current_interface := []
    tc_interfaces_to_throttle := []
    callback := none }

/-- `Throttler::ClearThrottleStatus`: forget the desired configuration. -/
def clearThrottleStatus (s : ThrottlerState) : ThrottlerState :=
  { s with
    desired_throttling_enabled := false
    desired_upload_rate_kbits := 0
    desired_download_rate_kbits := 0 }

/-- The callback-invocation events `Done` produces: one `cbRun` event when
the callback is non-null, none otherwise. -/
def cbRunEvts (cb : Option Nat) (t : ErrType) (msg : List Char) : List TCEvent :=
  match cb with
  | some c => [TCEvent.cbRun c t msg]
  | none => []

/-- `Throttler::Done`: populate and log the error, run the callback when it
is non-null, then `ClearTCState`. -/
def done (s : ThrottlerState) (cb : Option Nat) (t : ErrType) (msg : List Char) :
    ThrottlerState × List TCEvent :=
  (clearTCState s, cbRunEvts cb t msg)

/-- `Throttler::GetNextInterface`: take the back of
`tc_interfaces_to_throttle_` (empty string when the queue is empty) and pop
it; returns the name and the remaining queue. -/
def getNextInterface (q : List (List Char)) : List Char × List (List Char) :=
  if q.isEmpty then ([], []) else (q.getLastD [], q.dropLast)

/-- `Throttler::StartTCForCommands`: `CHECK_EQ(tc_pid_, 0)` (modelled as
`none` on violation); store the commands, spawn tc (recording the pid), and
if making the stdin pipe non-blocking fails, `Done(callback_,
kOperationFailed, ...)` and return false; otherwise arm the write handler
and return true. -/
def startTCForCommands (s : ThrottlerState) (commands : List (List Char)) (env : Env) :
    Option (Bool × ThrottlerState × List TCEvent) :=
  if s.tc_pid ≠ 0 then none
  else
    let s1 : ThrottlerState := { s with tc_commands := commands, tc_pid := env.pid }
    let spawnEvt : List TCEvent := [TCEvent.spawn env.pid commands]
    if env.fdNonBlockFail then
      let r := done s1 s1.callback ErrType.operationFailed
        (("Unable to set TC pipes to be non-blocking").toList)
      some (false, r.1, spawnEvt ++ r.2)
    else
      some (true, s1, spawnEvt)

/-- `Throttler::Throttle`: reject with `kWrongState` (through `Done`) when a
process is in flight or leftover per-chain state exists; otherwise build the
command list, record the callback and current interface, and start tc. -/
def throttle (s : ThrottlerState) (cb : Option Nat) (iface : List Char)
    (ul dl : Nat) (env : Env) : Option (Bool × ThrottlerState × List TCEvent) :=
  if s.tc_pid ≠ 0 ∨ s.tc_commands ≠ [] ∨ s.tc_current_interface ≠ [] then
    let r := done s cb ErrType.wrongState (("Cannot run concurrent TC operations").toList)
    some (false, r.1, r.2)
  else
    let commands := buildThrottleCommands iface ul dl
    let s1 : ThrottlerState := { s with callback := cb, tc_current_interface := iface }
    startTCForCommands s1 commands env

/-- `Throttler::ThrottleInterfaces`: reject both-zero rates with
`kInvalidArguments`; load the queue from the device interface list; pop the
first (LIFO) interface, failing with `kOperationFailed` when it is empty;
record the desired configuration and call `Throttle`. -/
def throttleInterfaces (s : ThrottlerState) (cb : Option Nat)
    (deviceInterfaces : List (List Char)) (ul dl : Nat) (env : Env) :
    Option (Bool × ThrottlerState × List TCEvent) :=
  if ul = 0 ∧ dl = 0 then
    let r := done s cb ErrType.invalidArguments
      (("One of download/upload rates should be set").toList)
    some (false, r.1, r.2)
  else
    let s1 : ThrottlerState := { s with tc_interfaces_to_throttle := deviceInterfaces }
    let p := getNextInterface s1.tc_interfaces_to_throttle
    let s2 : ThrottlerState := { s1 with tc_interfaces_to_throttle := p.2 }
    if p.1 = [] then
      let r := done s2 cb ErrType.operationFailed
        (("No interfaces available for throttling").toList)
      some (false, r.1, r.2)
    else
      let s3 : ThrottlerState := { s2 with
        desired_throttling_enabled := true
        desired_upload_rate_kbits := ul
        desired_download_rate_kbits := dl }
      throttle s3 cb p.1 ul dl env

/-- `Throttler::DisableThrottlingOnAllInterfaces`: build the clean-up
commands for every device interface as one flat batch, record the callback,
start tc, and clear the desired configuration only when the start
succeeded. -/
def disableThrottlingOnAllInterfaces (s : ThrottlerState) (cb : Option Nat)
    (deviceInterfaces : List (List Char)) (env : Env) :
    Option (Bool × ThrottlerState × List TCEvent) :=
  let commands :=
    deviceInterfaces.flatMap (fun i => kTCCleanUpCmds.map (fun c => replaceAll kTemplateInterface i c))
  let s1 : ThrottlerState := { s with callback := cb }
  match startTCForCommands s1 commands env with
  | none => none
  | some (result, s2, evs) =>
      some (result, if result then clearThrottleStatus s2 else s2, evs)

/-- `Throttler::ApplyThrottleToNewInterface`: no-op returning false when
throttling is not desired; append to the queue when a process is in flight;
otherwise start a single-interface `Throttle` with a null callback and the
recorded desired rates. -/
def applyThrottleToNewInterface (s : ThrottlerState) (iface : List Char) (env : Env) :
    Option (Bool × ThrottlerState × List TCEvent) :=
  if s.desired_throttling_enabled = false then some (false, s, [])
  else if s.tc_pid ≠ 0 then
    some (true,
      { s with tc_interfaces_to_throttle := s.tc_interfaces_to_throttle ++ [iface] }, [])
  else
    throttle s none iface s.desired_upload_rate_kbits s.desired_download_rate_kbits env

/-- `Throttler::OnProcessExited`: `CHECK(tc_pid_)`, `CHECK(!tc_commands_....
empty())`, `CHECK(!desired_throttling_enabled_ ||
!tc_current_interface_.empty())` (each modelled as `none`); compute and log
the per-process error; pop the next interface; when none is left,
`Done(callback_, kSuccess, "")`; otherwise clear the finished operation's
bookkeeping and `Throttle` the next interface with the desired rates. -/
def onProcessExited (s : ThrottlerState) (status : Int) (env : Env) :
    Option (ThrottlerState × List TCEvent) :=
  if s.tc_pid = 0 then none
  else if s.tc_commands = [] then none
  else if s.desired_throttling_enabled = true ∧ s.tc_current_interface = [] then none
  else
    let p := getNextInterface s.tc_interfaces_to_throttle
    let s1 : ThrottlerState := { s with tc_interfaces_to_throttle := p.2 }
    let obs : List TCEvent := [TCEvent.exited status]
    if p.1 = [] then
      let r := done s1 s1.callback ErrType.success []
      some (r.1, obs ++ r.2)
    else
      let s2 : ThrottlerState := { s1 with
        tc_pid := 0
        tc_commands := []
        tc_current_interface := [] }
      match throttle s2 s2.callback p.1 s2.desired_upload_rate_kbits
          s2.desired_download_rate_kbits env with
      | none => none
      | some (_, s3, evs) => some (s3, obs ++ evs)

/-- Feed a list of process-exit statuses to `onProcessExited`, taking one
environment entry per observed exit (the entry is only consulted when a new
process is spawned). -/
def driveExits : ThrottlerState → List Int → List Env →
    Option (ThrottlerState × List TCEvent)
  | s, [], _ => some (s, [])
  | s, e :: es, envs =>
    match onProcessExited s e (envs.headD { pid := 0, fdNonBlockFail := false }) with
    | none => none
    | some (s1, evs) =>
      match driveExits s1 es envs.tail with
      | none => none
      | some (s2, evs') => some (s2, evs ++ evs')

/-- A whole top-level `ThrottleInterfaces` request followed by the chain of
process exits: the first environment entry serves the initial spawn, the
rest serve the re-spawns triggered by the exits. -/
def runThrottleChain (s : ThrottlerState) (cb : Option Nat)
    (deviceInterfaces : List (List Char)) (ul dl : Nat)
    (exits : List Int) (envs : List Env) :
    Option (Bool × ThrottlerState × List TCEvent) :=
  match envs with
  | [] => none
  | env0 :: rest =>
    match throttleInterfaces s cb deviceInterfaces ul dl env0 with
    | none => none
    | some (ok, s1, evs) =>
      if ok then
        match driveExits s1 exits rest with
        | none => none
        | some (s2, evs') => some (true, s2, evs ++ evs')
      else
        some (false, s1, evs)

/-- The spawn events of a trace, with their pids and command batches. -/
def spawnEvents (evs : List TCEvent) : List (Nat × List (List Char)) :=
  evs.filterMap (fun e =>
    match e with
    | TCEvent.spawn p c => some (p, c)
    | _ => none)

/-- The callback-invocation events of a trace. -/
def cbEvents (evs : List TCEvent) : List (Nat × ErrType × List Char) :=
  evs.filterMap (fun e =>
    match e with
    | TCEvent.cbRun c t m => some (c, t, m)
    | _ => none)

/-- Spawn/exit skeleton of a trace: `true` per spawn, `false` per observed
exit, callback invocations dropped.  A strictly sequential chain shows the
alternation `[true, false, true, false, ...]`. -/
def phases (evs : List TCEvent) : List Bool :=
  evs.filterMap (fun e =>
    match e with
    | TCEvent.spawn _ _ => some true
    | TCEvent.exited _ => some false
    | TCEvent.cbRun _ _ _ => none)

/-- The exact event trace of an in-flight chain whose remaining interfaces,
in processing order, are `r`: each observed exit spawns the next interface's
process, and the exit observed with nothing left runs the stored callback
with `kSuccess`. -/
def chainTrace (cb : Nat) (ul dl : Nat) :
    List (List Char) → List Int → List Env → List TCEvent
  | [], es, _ =>
    [TCEvent.exited (es.headD 0), TCEvent.cbRun cb ErrType.success []]
  | i :: r, es, envs =>
    TCEvent.exited (es.headD 0)
      :: TCEvent.spawn ((envs.headD { pid := 0, fdNonBlockFail := false }).pid)
          (buildThrottleCommands i ul dl)
      :: chainTrace cb ul dl r es.tail envs.tail

/-- A representative in-flight state: the Throttler as it stands right after
an accepted `ThrottleInterfaces(cb = 1, ul = 1000, dl = 500)` over the device
list `["eth0", "wlan0"]` spawned tc (pid 42) for `"wlan0"`, with `"eth0"`
still queued. -/
def inFlightState : ThrottlerState :=
  { tc_pid := 42
    tc_commands := buildThrottleCommands (("wlan0").toList) 1000 500
    tc_current_interface := ("wlan0").toList
    tc_interfaces_to_throttle := [("eth0").toList]
    callback := some 1
    desired_throttling_enabled := true
    desired_upload_rate_kbits := 1000
    desired_download_rate_kbits := 500 }

/-! ### Basic properties of the substitution and decimal printers -/

theorem replaceAllFuel_nil (f : Nat) (pat repl : List Char) :
    replaceAllFuel f pat repl [] = [] := by
  cases f <;> rfl

theorem replaceAllFuel_congr (f1 : Nat) : ∀ (f2 : Nat) (pat repl s : List Char),
    s.length ≤ f1 → s.length ≤ f2 →
    replaceAllFuel f1 pat repl s = replaceAllFuel f2 pat repl s := by
  induction f1 with
  | zero =>
    intro f2 pat repl s h1 _
    have hs : s = [] := List.eq_nil_of_length_eq_zero (Nat.le_zero.mp h1)
    subst hs
    rw [replaceAllFuel_nil, replaceAllFuel_nil]
  | succ g ih =>
    intro f2 pat repl s h1 h2
    cases s with
    | nil => rw [replaceAllFuel_nil, replaceAllFuel_nil]
    | cons c rest =>
      cases f2 with
      | zero => simp at h2
      | succ g2 =>
        simp only [replaceAllFuel]
        by_cases hc : (!pat.isEmpty && pat.isPrefixOf (c :: rest)) = true
        · rw [if_pos hc, if_pos hc]
          have hp : pat ≠ [] := by
            intro he
            subst he
            simp at hc
          have hplen : 1 ≤ pat.length := by
            cases pat with
            | nil => exact absurd rfl hp
            | cons a p => simp
          have hlen : ((c :: rest).drop pat.length).length ≤ g := by
            simp only [List.length_drop, List.length_cons]
            simp only [List.length_cons] at h1
            omega
          have hlen2 : ((c :: rest).drop pat.length).length ≤ g2 := by
            simp only [List.length_drop, List.length_cons]
            simp only [List.length_cons] at h2
            omega
          rw [ih _ pat repl _ hlen hlen2]
        · rw [if_neg hc, if_neg hc]
          have hlen : rest.length ≤ g := by
            simp only [List.length_cons] at h1; omega
          have hlen2 : rest.length ≤ g2 := by
            simp only [List.length_cons] at h2; omega
          rw [ih _ pat repl _ hlen hlen2]

theorem replaceAll_nil (pat repl : List Char) : replaceAll pat repl [] = [] := rfl

theorem replaceAll_cons (pat repl : List Char) (c : Char) (s : List Char) :
    replaceAll pat repl (c :: s) =
      if (!pat.isEmpty && pat.isPrefixOf (c :: s)) = true then
        repl ++ replaceAll pat repl ((c :: s).drop pat.length)
      else c :: replaceAll pat repl s := by
  unfold replaceAll
  simp only [List.length_cons, replaceAllFuel]
  by_cases hc : (!pat.isEmpty && pat.isPrefixOf (c :: s)) = true
  · rw [if_pos hc, if_pos hc]
    have hp : 1 ≤ pat.length := by
      have hne : pat ≠ [] := by
        intro he
        subst he
        simp at hc
      cases pat with
      | nil => exact absurd rfl hne
      | cons a p => simp
    have hlen : ((c :: s).drop pat.length).length ≤ s.length := by
      simp only [List.length_drop, List.length_cons]
      omega
    rw [replaceAllFuel_congr _ _ pat repl _ hlen (Nat.le_refl _)]
  · rw [if_neg hc, if_neg hc]

theorem isPrefixOf_append_self (l t : List Char) : l.isPrefixOf (l ++ t) = true := by
  induction l with
  | nil => simp [List.isPrefixOf]
  | cons a p ih => simp [List.isPrefixOf, ih]

/-- Scanning skips a segment that cannot begin a match: when the pattern
starts with a dollar sign and the segment contains none, replacement
distributes over the append. -/
theorem replaceAll_append_clean (pat repl t : List Char) (hp : pat.head? = some '$') :
    ∀ s : List Char, ('$' : Char) ∉ s →
    replaceAll pat repl (s ++ t) = s ++ replaceAll pat repl t := by
  obtain ⟨p', rfl⟩ : ∃ p', pat = '$' :: p' := by
    cases pat with
    | nil => simp at hp
    | cons a p =>
      simp only [List.head?_cons, Option.some.injEq] at hp
      exact ⟨p, by rw [hp]⟩
  intro s
  induction s with
  | nil => intro _; simp
  | cons c s ih =>
    intro hs
    have hc : ¬('$' : Char) = c := fun h => hs (List.mem_cons.mpr (Or.inl h))
    have hs' : ('$' : Char) ∉ s := fun h => hs (List.mem_cons_of_mem _ h)
    rw [List.cons_append, replaceAll_cons]
    have hpre : (('$' :: p').isPrefixOf (c :: (s ++ t))) = false := by
      simp only [List.isPrefixOf, Bool.and_eq_false_iff]
      left
      exact beq_eq_false_iff_ne.mpr hc
    rw [if_neg (by simp [hpre])]
    rw [ih hs', List.cons_append]

/-- Scanning a string that starts with the pattern substitutes it and
continues after it (the replacement text is not rescanned). -/
theorem replaceAll_append_match (pat repl t : List Char) (hp : pat ≠ []) :
    replaceAll pat repl (pat ++ t) = repl ++ replaceAll pat repl t := by
  cases pat with
  | nil => exact absurd rfl hp
  | cons a p =>
    rw [List.cons_append, replaceAll_cons]
    have hpre : ((a :: p).isPrefixOf (a :: (p ++ t))) = true := by
      exact isPrefixOf_append_self (a :: p) t
    rw [if_pos (by simp [hpre])]
    congr 1
    simp only [List.length_cons, List.drop_succ_cons]
    rw [List.drop_left]

/-- When the pattern occurs nowhere in the string, replacement is the
identity (for any replacement text). -/
theorem replaceAll_of_not_occurs (pat repl : List Char) :
    ∀ s, occursIn pat s = false → replaceAll pat repl s = s := by
  intro s
  induction s with
  | nil => intro _; rfl
  | cons c rest ih =>
    intro h
    simp only [occursIn, Bool.or_eq_false_iff] at h
    rw [replaceAll_cons, if_neg (by simp [h.1]), ih h.2]

theorem decChar_ne_dollar (d : Nat) : decChar d ≠ '$' := by
  unfold decChar
  split <;> decide

theorem decimalFuel_no_dollar (f : Nat) : ∀ (n : Nat) (acc : List Char),
    ('$' : Char) ∉ acc → ('$' : Char) ∉ decimalFuel f n acc := by
  induction f with
  | zero => intro n acc h; exact h
  | succ g ih =>
    intro n acc h
    cases n with
    | zero => exact h
    | succ m =>
      simp only [decimalFuel]
      apply ih
      intro hmem
      rcases List.mem_cons.mp hmem with h1 | h2
      · exact decChar_ne_dollar _ h1.symm
      · exact h h2

theorem decimal_no_dollar (n : Nat) : ('$' : Char) ∉ decimal n := by
  unfold decimal
  split
  · decide
  · exact decimalFuel_no_dollar _ _ _ (by simp)

/-- A pattern starting with a dollar sign does not occur in a dollar-free
string. -/
theorem occursIn_dollar_free (pat : List Char) (hp : pat.head? = some '$') :
    ∀ s : List Char, ('$' : Char) ∉ s → occursIn pat s = false := by
  obtain ⟨rest, rfl⟩ : ∃ rest, pat = '$' :: rest := by
    cases pat with
    | nil => simp at hp
    | cons a p =>
      simp only [List.head?_cons, Option.some.injEq] at hp
      exact ⟨p, by rw [hp]⟩
  intro s
  induction s with
  | nil => intro _; rfl
  | cons c s' ih =>
    intro h
    have hc : ¬('$' : Char) = c := fun hh => h (List.mem_cons.mpr (Or.inl hh))
    have h' : ('$' : Char) ∉ s' := fun hh => h (List.mem_cons_of_mem _ hh)
    simp only [occursIn, Bool.or_eq_false_iff]
    refine ⟨?_, ih h'⟩
    simp only [List.isPrefixOf, Bool.and_eq_false_iff]
    left
    exact beq_eq_false_iff_ne.mpr hc

/-! ### Exact expansion of the seven command templates -/

theorem expandCleanup1 (iface : List Char) :
    replaceAll kTemplateInterface iface (("qdisc del dev ${INTERFACE} root\n").toList)
      = ("qdisc del dev ").toList ++ (iface ++ (" root\n").toList) := by
  have hdec : (("qdisc del dev ${INTERFACE} root\n").toList : List Char)
      = ("qdisc del dev ").toList ++ (kTemplateInterface ++ (" root\n").toList) := by decide
  rw [hdec]
  rw [replaceAll_append_clean kTemplateInterface iface _ (by decide)
        (("qdisc del dev ").toList) (by decide)]
  rw [replaceAll_append_match kTemplateInterface iface _ (by decide)]
  rw [replaceAll_of_not_occurs kTemplateInterface iface ((" root\n").toList) (by decide)]

theorem no_dollar_rate (n : Nat) : ('$' : Char) ∉ (decimal n ++ ("kbit").toList) := by
  intro h
  rcases List.mem_append.mp h with h | h
  · exact decimal_no_dollar n h
  · revert h
    decide

theorem expandCleanup2 (iface : List Char) :
    replaceAll kTemplateInterface iface (("qdisc del dev ${INTERFACE} ingress\n").toList)
      = ("qdisc del dev ").toList ++ (iface ++ (" ingress\n").toList) := by
  have hdec : (("qdisc del dev ${INTERFACE} ingress\n").toList : List Char)
      = ("qdisc del dev ").toList ++ (kTemplateInterface ++ (" ingress\n").toList) := by decide
  rw [hdec]
  rw [replaceAll_append_clean kTemplateInterface iface _ (by decide)
        ("qdisc del dev ").toList (by decide)]
  rw [replaceAll_append_match kTemplateInterface iface _ (by decide)]
  rw [replaceAll_of_not_occurs kTemplateInterface iface
        (" ingress\n").toList (by decide)]

theorem expandUplink1 (iface : List Char) (ul : Nat) (hif : ('$' : Char) ∉ iface) :
    replaceAll kTemplateULRate (decimal ul ++ ("kbit").toList)
      (replaceAll kTemplateInterface iface
        (("qdisc add dev ${INTERFACE} root handle 1: htb default 11\n").toList))
      = ("qdisc add dev ").toList ++ (iface ++ (" root handle 1: htb default 11\n").toList) := by
  have hdec : (("qdisc add dev ${INTERFACE} root handle 1: htb default 11\n").toList : List Char)
      = ("qdisc add dev ").toList ++ (kTemplateInterface
          ++ (" root handle 1: htb default 11\n").toList) := by decide
  rw [hdec]
  rw [replaceAll_append_clean kTemplateInterface iface _ (by decide)
        ("qdisc add dev ").toList (by decide)]
  rw [replaceAll_append_match kTemplateInterface iface _ (by decide)]
  rw [replaceAll_of_not_occurs kTemplateInterface iface
        (" root handle 1: htb default 11\n").toList (by decide)]
  rw [replaceAll_append_clean kTemplateULRate (decimal ul ++ ("kbit").toList) _ (by decide)
        ("qdisc add dev ").toList (by decide)]
  rw [replaceAll_append_clean kTemplateULRate (decimal ul ++ ("kbit").toList) _ (by decide)
        iface hif]
  rw [replaceAll_of_not_occurs kTemplateULRate (decimal ul ++ ("kbit").toList)
        (" root handle 1: htb default 11\n").toList (by decide)]

theorem expandUplink2 (iface : List Char) (ul : Nat) (hif : ('$' : Char) ∉ iface) :
    replaceAll kTemplateULRate (decimal ul ++ ("kbit").toList)
      (replaceAll kTemplateInterface iface
        (("class add dev ${INTERFACE} parent 1: classid 1:1 htb rate ${ULRATE}\n").toList))
      = ("class add dev ").toList ++ (iface ++ ((" parent 1: classid 1:1 htb rate ").toList
          ++ (decimal ul ++ (("kbit").toList ++ ("\n").toList)))) := by
  have hdec : (("class add dev ${INTERFACE} parent 1: classid 1:1 htb rate ${ULRATE}\n").toList : List Char)
      = ("class add dev ").toList ++ (kTemplateInterface
          ++ (" parent 1: classid 1:1 htb rate ${ULRATE}\n").toList) := by decide
  rw [hdec]
  rw [replaceAll_append_clean kTemplateInterface iface _ (by decide)
        ("class add dev ").toList (by decide)]
  rw [replaceAll_append_match kTemplateInterface iface _ (by decide)]
  rw [replaceAll_of_not_occurs kTemplateInterface iface
        (" parent 1: classid 1:1 htb rate ${ULRATE}\n").toList (by decide)]
  have hB : ((" parent 1: classid 1:1 htb rate ${ULRATE}\n").toList : List Char)
      = (" parent 1: classid 1:1 htb rate ").toList ++ (kTemplateULRate ++ ("\n").toList) := by decide
  rw [hB]
  rw [replaceAll_append_clean kTemplateULRate (decimal ul ++ ("kbit").toList) _ (by decide)
        ("class add dev ").toList (by decide)]
  rw [replaceAll_append_clean kTemplateULRate (decimal ul ++ ("kbit").toList) _ (by decide)
        iface hif]
  rw [replaceAll_append_clean kTemplateULRate (decimal ul ++ ("kbit").toList) _ (by decide)
        (" parent 1: classid 1:1 htb rate ").toList (by decide)]
  rw [replaceAll_append_match kTemplateULRate (decimal ul ++ ("kbit").toList) _ (by decide)]
  rw [replaceAll_of_not_occurs kTemplateULRate (decimal ul ++ ("kbit").toList)
        ("\n").toList (by decide)]
  simp only [List.append_assoc]

theorem expandUplink3 (iface : List Char) (ul : Nat) (hif : ('$' : Char) ∉ iface) :
    replaceAll kTemplateULRate (decimal ul ++ ("kbit").toList)
      (replaceAll kTemplateInterface iface
        (("class add dev ${INTERFACE} parent 1:1 classid 1:11 htb rate " ++
          "${ULRATE} prio 0 quantum 300\n").toList))
      = ("class add dev ").toList ++ (iface ++ ((" parent 1:1 classid 1:11 htb rate ").toList
          ++ (decimal ul ++ (("kbit").toList ++ (" prio 0 quantum 300\n").toList)))) := by
  have hdec : ((("class add dev ${INTERFACE} parent 1:1 classid 1:11 htb rate " ++
          "${ULRATE} prio 0 quantum 300\n").toList : List Char))
      = ("class add dev ").toList ++ (kTemplateInterface
          ++ (" parent 1:1 classid 1:11 htb rate ${ULRATE} prio 0 quantum 300\n").toList) := by decide
  rw [hdec]
  rw [replaceAll_append_clean kTemplateInterface iface _ (by decide)
        ("class add dev ").toList (by decide)]
  rw [replaceAll_append_match kTemplateInterface iface _ (by decide)]
  rw [replaceAll_of_not_occurs kTemplateInterface iface
        (" parent 1:1 classid 1:11 htb rate ${ULRATE} prio 0 quantum 300\n").toList (by decide)]
  have hB : ((" parent 1:1 classid 1:11 htb rate ${ULRATE} prio 0 quantum 300\n").toList : List Char)
      = (" parent 1:1 classid 1:11 htb rate ").toList
          ++ (kTemplateULRate ++ (" prio 0 quantum 300\n").toList) := by decide
  rw [hB]
  rw [replaceAll_append_clean kTemplateULRate (decimal ul ++ ("kbit").toList) _ (by decide)
        ("class add dev ").toList (by decide)]
  rw [replaceAll_append_clean kTemplateULRate (decimal ul ++ ("kbit").toList) _ (by decide)
        iface hif]
  rw [replaceAll_append_clean kTemplateULRate (decimal ul ++ ("kbit").toList) _ (by decide)
        (" parent 1:1 classid 1:11 htb rate ").toList (by decide)]
  rw [replaceAll_append_match kTemplateULRate (decimal ul ++ ("kbit").toList) _ (by decide)]
  rw [replaceAll_of_not_occurs kTemplateULRate (decimal ul ++ ("kbit").toList)
        (" prio 0 quantum 300\n").toList (by decide)]
  simp only [List.append_assoc]

theorem expandDownlink1 (iface : List Char) (dl : Nat) (hif : ('$' : Char) ∉ iface) :
    replaceAll kTemplateBurst (decimal ((dl * 2) % (2 ^ 32)))
      (replaceAll kTemplateDLRate (decimal dl ++ ("kbit").toList)
        (replaceAll kTemplateInterface iface
          (("qdisc add dev ${INTERFACE} handle ffff: ingress\n").toList)))
      = ("qdisc add dev ").toList ++ (iface ++ (" handle ffff: ingress\n").toList) := by
  have hdec : (("qdisc add dev ${INTERFACE} handle ffff: ingress\n").toList : List Char)
      = ("qdisc add dev ").toList ++ (kTemplateInterface
          ++ (" handle ffff: ingress\n").toList) := by decide
  rw [hdec]
  rw [replaceAll_append_clean kTemplateInterface iface _ (by decide)
        ("qdisc add dev ").toList (by decide)]
  rw [replaceAll_append_match kTemplateInterface iface _ (by decide)]
  rw [replaceAll_of_not_occurs kTemplateInterface iface
        (" handle ffff: ingress\n").toList (by decide)]
  rw [replaceAll_append_clean kTemplateDLRate (decimal dl ++ ("kbit").toList) _ (by decide)
        ("qdisc add dev ").toList (by decide)]
  rw [replaceAll_append_clean kTemplateDLRate (decimal dl ++ ("kbit").toList) _ (by decide)
        iface hif]
  rw [replaceAll_of_not_occurs kTemplateDLRate (decimal dl ++ ("kbit").toList)
        (" handle ffff: ingress\n").toList (by decide)]
  rw [replaceAll_append_clean kTemplateBurst (decimal ((dl * 2) % (2 ^ 32))) _ (by decide)
        ("qdisc add dev ").toList (by decide)]
  rw [replaceAll_append_clean kTemplateBurst (decimal ((dl * 2) % (2 ^ 32))) _ (by decide)
        iface hif]
  rw [replaceAll_of_not_occurs kTemplateBurst (decimal ((dl * 2) % (2 ^ 32)))
        (" handle ffff: ingress\n").toList (by decide)]

theorem expandDownlink2 (iface : List Char) (dl : Nat) (hif : ('$' : Char) ∉ iface) :
    replaceAll kTemplateBurst (decimal ((dl * 2) % (2 ^ 32)))
      (replaceAll kTemplateDLRate (decimal dl ++ ("kbit").toList)
        (replaceAll kTemplateInterface iface
          (("filter add dev ${INTERFACE} parent ffff: protocol all " ++
            " prio 50 u32 match ip" ++
            " src 0.0.0.0/0 police rate ${DLRATE} burst ${BURST}k mtu 66000" ++
            " drop flowid :1\n").toList)))
      = ("filter add dev ").toList ++ (iface
          ++ ((" parent ffff: protocol all  prio 50 u32 match ip src 0.0.0.0/0 police rate ").toList
            ++ (decimal dl ++ (("kbit").toList
              ++ ((" burst ").toList
                ++ (decimal ((dl * 2) % (2 ^ 32)) ++ ("k mtu 66000 drop flowid :1\n").toList)))))) := by
  have hdec : ((("filter add dev ${INTERFACE} parent ffff: protocol all " ++
            " prio 50 u32 match ip" ++
            " src 0.0.0.0/0 police rate ${DLRATE} burst ${BURST}k mtu 66000" ++
            " drop flowid :1\n").toList : List Char))
      = ("filter add dev ").toList ++ (kTemplateInterface
          ++ (" parent ffff: protocol all  prio 50 u32 match ip src 0.0.0.0/0 police rate ${DLRATE} burst ${BURST}k mtu 66000 drop flowid :1\n").toList) := by decide
  rw [hdec]
  rw [replaceAll_append_clean kTemplateInterface iface _ (by decide)
        ("filter add dev ").toList (by decide)]
  rw [replaceAll_append_match kTemplateInterface iface _ (by decide)]
  rw [replaceAll_of_not_occurs kTemplateInterface iface
        (" parent ffff: protocol all  prio 50 u32 match ip src 0.0.0.0/0 police rate ${DLRATE} burst ${BURST}k mtu 66000 drop flowid :1\n").toList (by decide)]
  have hB : ((" parent ffff: protocol all  prio 50 u32 match ip src 0.0.0.0/0 police rate ${DLRATE} burst ${BURST}k mtu 66000 drop flowid :1\n").toList : List Char)
      = (" parent ffff: protocol all  prio 50 u32 match ip src 0.0.0.0/0 police rate ").toList ++ (kTemplateDLRate ++ (" burst ${BURST}k mtu 66000 drop flowid :1\n").toList) := by decide
  rw [hB]
  rw [replaceAll_append_clean kTemplateDLRate (decimal dl ++ ("kbit").toList) _ (by decide)
        ("filter add dev ").toList (by decide)]
  rw [replaceAll_append_clean kTemplateDLRate (decimal dl ++ ("kbit").toList) _ (by decide)
        iface hif]
  rw [replaceAll_append_clean kTemplateDLRate (decimal dl ++ ("kbit").toList) _ (by decide)
        (" parent ffff: protocol all  prio 50 u32 match ip src 0.0.0.0/0 police rate ").toList (by decide)]
  rw [replaceAll_append_match kTemplateDLRate (decimal dl ++ ("kbit").toList) _ (by decide)]
  rw [replaceAll_of_not_occurs kTemplateDLRate (decimal dl ++ ("kbit").toList)
        (" burst ${BURST}k mtu 66000 drop flowid :1\n").toList (by decide)]
  have hB2 : ((" burst ${BURST}k mtu 66000 drop flowid :1\n").toList : List Char)
      = (" burst ").toList ++ (kTemplateBurst ++ ("k mtu 66000 drop flowid :1\n").toList) := by decide
  rw [hB2]
  rw [replaceAll_append_clean kTemplateBurst (decimal ((dl * 2) % (2 ^ 32))) _ (by decide)
        ("filter add dev ").toList (by decide)]
  rw [replaceAll_append_clean kTemplateBurst (decimal ((dl * 2) % (2 ^ 32))) _ (by decide)
        iface hif]
  rw [replaceAll_append_clean kTemplateBurst (decimal ((dl * 2) % (2 ^ 32))) _ (by decide)
        (" parent ffff: protocol all  prio 50 u32 match ip src 0.0.0.0/0 police rate ").toList (by decide)]
  rw [replaceAll_append_clean kTemplateBurst (decimal ((dl * 2) % (2 ^ 32))) _ (by decide)
        (decimal dl ++ ("kbit").toList) (no_dollar_rate dl)]
  rw [replaceAll_append_clean kTemplateBurst (decimal ((dl * 2) % (2 ^ 32))) _ (by decide)
        (" burst ").toList (by decide)]
  rw [replaceAll_append_match kTemplateBurst (decimal ((dl * 2) % (2 ^ 32))) _ (by decide)]
  rw [replaceAll_of_not_occurs kTemplateBurst (decimal ((dl * 2) % (2 ^ 32)))
        ("k mtu 66000 drop flowid :1\n").toList (by decide)]
  simp only [List.append_assoc]

/-! ### The assembled command list -/

/-- With both rates nonzero and a sanitized interface name, the command list
built for one interface is exactly: the 2 clean-up lines, the 3 uplink lines,
the 2 downlink lines, fully substituted. -/
theorem buildThrottleCommands_expand (iface : List Char) (ul dl : Nat)
    (hul : ul ≠ 0) (hdl : dl ≠ 0) (hif : ('$' : Char) ∉ iface) :
    buildThrottleCommands iface ul dl =
      [("qdisc del dev ").toList ++ (iface ++ (" root\n").toList),
       ("qdisc del dev ").toList ++ (iface ++ (" ingress\n").toList),
       ("qdisc add dev ").toList ++ (iface ++ (" root handle 1: htb default 11\n").toList),
       ("class add dev ").toList ++ (iface ++ ((" parent 1: classid 1:1 htb rate ").toList
          ++ (decimal ul ++ (("kbit").toList ++ ("\n").toList)))),
       ("class add dev ").toList ++ (iface ++ ((" parent 1:1 classid 1:11 htb rate ").toList
          ++ (decimal ul ++ (("kbit").toList ++ (" prio 0 quantum 300\n").toList)))),
       ("qdisc add dev ").toList ++ (iface ++ (" handle ffff: ingress\n").toList),
       ("filter add dev ").toList ++ (iface
          ++ ((" parent ffff: protocol all  prio 50 u32 match ip src 0.0.0.0/0 police rate ").toList
            ++ (decimal dl ++ (("kbit").toList
              ++ ((" burst ").toList
                ++ (decimal ((dl * 2) % (2 ^ 32)) ++ ("k mtu 66000 drop flowid :1\n").toList))))))] := by
  unfold buildThrottleCommands
  rw [if_pos hul, if_pos hdl]
  simp only [kTCCleanUpCmds, kTCThrottleUplinkCmds, kTCThrottleDownlinkCmds, List.map]
  rw [expandCleanup1 iface, expandCleanup2 iface, expandUplink1 iface ul hif,
    expandUplink2 iface ul hif, expandUplink3 iface ul hif,
    expandDownlink1 iface dl hif, expandDownlink2 iface dl hif]
  rfl

/-- With both rates zero, `Throttle` builds only the two clean-up lines. -/
theorem buildThrottleCommands_zero (iface : List Char) :
    buildThrottleCommands iface 0 0 =
      [("qdisc del dev ").toList ++ (iface ++ (" root\n").toList),
       ("qdisc del dev ").toList ++ (iface ++ (" ingress\n").toList)] := by
  unfold buildThrottleCommands
  rw [if_neg (by simp), if_neg (by simp)]
  simp only [kTCCleanUpCmds, List.map]
  rw [expandCleanup1 iface, expandCleanup2 iface]
  rfl

/-- The command list is never empty (the clean-up commands are always
included). -/
theorem buildThrottleCommands_ne_nil (iface : List Char) (ul dl : Nat) :
    buildThrottleCommands iface ul dl ≠ [] := by
  unfold buildThrottleCommands
  simp [kTCCleanUpCmds]

theorem no_dollar_append (s t : List Char) (hs : ('$' : Char) ∉ s)
    (ht : ('$' : Char) ∉ t) : ('$' : Char) ∉ s ++ t := by
  intro h
  rcases List.mem_append.mp h with h | h
  · exact hs h
  · exact ht h

/-- No expanded command line contains a dollar sign when the interface name
is sanitized: all placeholders are gone. -/
theorem no_dollar_lines (iface : List Char) (ul dl : Nat)
    (hul : ul ≠ 0) (hdl : dl ≠ 0) (hif : ('$' : Char) ∉ iface) :
    ∀ l ∈ buildThrottleCommands iface ul dl, ('$' : Char) ∉ l := by
  rw [buildThrottleCommands_expand iface ul dl hul hdl hif]
  intro l hl
  simp only [List.mem_cons, List.not_mem_nil, or_false] at hl
  rcases hl with h | h | h | h | h | h | h <;> subst h
  · exact no_dollar_append _ _ (by decide) (no_dollar_append _ _ hif (by decide))
  · exact no_dollar_append _ _ (by decide) (no_dollar_append _ _ hif (by decide))
  · exact no_dollar_append _ _ (by decide) (no_dollar_append _ _ hif (by decide))
  · exact no_dollar_append _ _ (by decide) (no_dollar_append _ _ hif
      (no_dollar_append _ _ (by decide) (no_dollar_append _ _ (decimal_no_dollar ul)
        (no_dollar_append _ _ (by decide) (by decide)))))
  · exact no_dollar_append _ _ (by decide) (no_dollar_append _ _ hif
      (no_dollar_append _ _ (by decide) (no_dollar_append _ _ (decimal_no_dollar ul)
        (no_dollar_append _ _ (by decide) (by decide)))))
  · exact no_dollar_append _ _ (by decide) (no_dollar_append _ _ hif (by decide))
  · exact no_dollar_append _ _ (by decide) (no_dollar_append _ _ hif
      (no_dollar_append _ _ (by decide) (no_dollar_append _ _ (decimal_no_dollar dl)
        (no_dollar_append _ _ (by decide) (no_dollar_append _ _ (by decide)
          (no_dollar_append _ _ (decimal_no_dollar ((dl * 2) % (2 ^ 32))) (by decide)))))))

/-! ### Stepping lemmas for the interface chain -/

theorem getNextInterface_nil : getNextInterface [] = ([], []) := rfl

theorem getNextInterface_concat (q : List (List Char)) (a : List Char) :
    getNextInterface (q ++ [a]) = (a, q) := by
  unfold getNextInterface
  rw [if_neg (by simp)]
  rw [List.getLastD_concat, List.dropLast_concat]

/-- A process exit observed with an empty interface queue finishes the chain:
the stored callback is run with `kSuccess` (whatever the exit status was) and
the transient state is cleared. -/
theorem onProcessExited_last (s : ThrottlerState) (status : Int) (env : Env)
    (hpid : s.tc_pid ≠ 0) (hcmd : s.tc_commands ≠ [])
    (hcur : ¬(s.desired_throttling_enabled = true ∧ s.tc_current_interface = []))
    (hq : s.tc_interfaces_to_throttle = []) :
    onProcessExited s status env =
      some (clearTCState s,
        TCEvent.exited status :: cbRunEvts s.callback ErrType.success []) := by
  unfold onProcessExited
  rw [if_neg hpid, if_neg hcmd, if_neg hcur]
  simp only [hq, getNextInterface_nil]
  simp [done, clearTCState]

/-- A process exit observed with a non-empty queue pops the back of the queue
and immediately spawns the next interface's process with the desired rates. -/
theorem onProcessExited_step (s : ThrottlerState) (status : Int) (env : Env)
    (q : List (List Char)) (i : List Char)
    (hpid : s.tc_pid ≠ 0) (hcmd : s.tc_commands ≠ [])
    (hcur : ¬(s.desired_throttling_enabled = true ∧ s.tc_current_interface = []))
    (hq : s.tc_interfaces_to_throttle = q ++ [i]) (hi : i ≠ [])
    (hfd : env.fdNonBlockFail = false) :
    onProcessExited s status env =
      some ({ s with
                tc_interfaces_to_throttle := q
                tc_current_interface := i
                tc_commands := buildThrottleCommands i s.desired_upload_rate_kbits
                  s.desired_download_rate_kbits
                tc_pid := env.pid },
            [TCEvent.exited status,
             TCEvent.spawn env.pid (buildThrottleCommands i s.desired_upload_rate_kbits
               s.desired_download_rate_kbits)]) := by
  unfold onProcessExited
  rw [if_neg hpid, if_neg hcmd, if_neg hcur]
  simp only [hq, getNextInterface_concat]
  rw [if_neg hi]
  unfold throttle
  rw [if_neg (by simp)]
  unfold startTCForCommands
  rw [if_neg (by simp)]
  rw [if_neg (by simp [hfd])]
  rfl

/-- An accepted `ThrottleInterfaces` request: nonzero rates, a non-empty
device list whose last name is non-empty, an idle Throttler, and a healthy
spawn — the request records the desired configuration, queues all but the
last device interface, and spawns tc for the last one. -/
theorem throttleInterfaces_accept (s : ThrottlerState) (cb : Option Nat)
    (q : List (List Char)) (a : List Char) (ul dl : Nat) (env : Env)
    (hrate : ¬(ul = 0 ∧ dl = 0))
    (hpid0 : s.tc_pid = 0) (hcmd0 : s.tc_commands = [])
    (hcur0 : s.tc_current_interface = [])
    (ha : a ≠ []) (hfd : env.fdNonBlockFail = false) :
    throttleInterfaces s cb (q ++ [a]) ul dl env =
      some (true,
        { s with
            tc_interfaces_to_throttle := q
            callback := cb
            tc_current_interface := a
            tc_commands := buildThrottleCommands a ul dl
            tc_pid := env.pid
            desired_throttling_enabled := true
            desired_upload_rate_kbits := ul
            desired_download_rate_kbits := dl },
        [TCEvent.spawn env.pid (buildThrottleCommands a ul dl)]) := by
  unfold throttleInterfaces
  rw [if_neg hrate]
  simp only [getNextInterface_concat]
  rw [if_neg ha]
  unfold throttle
  rw [if_neg (by simp [hpid0, hcmd0, hcur0])]
  unfold startTCForCommands
  rw [if_neg (by simp [hpid0])]
  rw [if_neg (by simp [hfd])]

/-- Driving an in-flight chain with one exit status per remaining process:
the events are exactly `chainTrace`, and the final state is idle with the
desired configuration preserved. -/
theorem driveExits_chain (cb : Nat) (ul dl : Nat) :
    ∀ (r : List (List Char)) (s : ThrottlerState) (exits : List Int) (envs : List Env),
      s.tc_pid ≠ 0 → s.tc_commands ≠ [] → s.tc_current_interface ≠ [] →
      s.desired_throttling_enabled = true →
      s.desired_upload_rate_kbits = ul →
      s.desired_download_rate_kbits = dl →
      s.callback = some cb →
      s.tc_interfaces_to_throttle = r.reverse →
      (∀ i ∈ r, i ≠ ([] : List Char)) →
      exits.length = r.length + 1 →
      r.length ≤ envs.length →
      (∀ e ∈ envs, e.pid ≠ 0 ∧ e.fdNonBlockFail = false) →
      driveExits s exits envs =
        some ({ initState with
                  desired_throttling_enabled := true
                  desired_upload_rate_kbits := ul
                  desired_download_rate_kbits := dl },
              chainTrace cb ul dl r exits envs) := by
  intro r
  induction r with
  | nil =>
    intro s exits envs hpid hcmd hcur hen hup hdn hcb hq hnames hlen hlenv hgood
    match exits, hlen with
    | [e], _ =>
      simp only [driveExits]
      rw [onProcessExited_last s e _ hpid hcmd (by simp [hcur]) (by simpa using hq)]
      simp only [hcb, cbRunEvts, chainTrace]
      simp [clearTCState, initState, hen, hup, hdn]
  | cons i r' ih =>
    intro s exits envs hpid hcmd hcur hen hup hdn hcb hq hnames hlen hlenv hgood
    cases exits with
    | nil => simp at hlen
    | cons e es =>
      cases envs with
      | nil => simp at hlenv
      | cons env envs' =>
        have hqc : s.tc_interfaces_to_throttle = r'.reverse ++ [i] := by
          simpa [List.reverse_cons] using hq
        have hgood0 := hgood env (List.mem_cons_self env envs')
        simp only [driveExits, List.headD_cons, List.tail_cons]
        rw [onProcessExited_step s e env r'.reverse i hpid hcmd (by simp [hcur]) hqc
          (hnames i (List.mem_cons_self i r')) hgood0.2]
        dsimp only
        rw [ih { s with tc_interfaces_to_throttle := r'.reverse, tc_current_interface := i, tc_commands := buildThrottleCommands i s.desired_upload_rate_kbits s.desired_download_rate_kbits, tc_pid := env.pid } es envs' (by simpa using hgood0.1) (by simpa using buildThrottleCommands_ne_nil i s.desired_upload_rate_kbits s.desired_download_rate_kbits) (by simpa using hnames i (List.mem_cons_self i r')) (by simpa using hen) (by simpa using hup) (by simpa using hdn) (by simpa using hcb) (by simp) (fun j hj => hnames j (List.mem_cons_of_mem i hj)) (by simpa using hlen) (by simpa using hlenv) (fun x hx => hgood x (List.mem_cons_of_mem env hx))]
        simp only [chainTrace, List.headD_cons, List.tail_cons, hup, hdn]
        simp

theorem chainTrace_ne_nil (cb ul dl : Nat) (r : List (List Char))
    (es : List Int) (envs : List Env) : chainTrace cb ul dl r es envs ≠ [] := by
  cases r <;> simp [chainTrace]

theorem chainTrace_cbEvents (cb ul dl : Nat) :
    ∀ (r : List (List Char)) (es : List Int) (envs : List Env),
    cbEvents (chainTrace cb ul dl r es envs) = [(cb, ErrType.success, ([] : List Char))] := by
  intro r
  induction r with
  | nil => intro es envs; simp [chainTrace, cbEvents]
  | cons i r' ih => intro es envs; simp [chainTrace, cbEvents] at ih ⊢; exact ih es.tail envs.tail

theorem chainTrace_spawn_length (cb ul dl : Nat) :
    ∀ (r : List (List Char)) (es : List Int) (envs : List Env),
    (spawnEvents (chainTrace cb ul dl r es envs)).length = r.length := by
  intro r
  induction r with
  | nil => intro es envs; simp [chainTrace, spawnEvents]
  | cons i r' ih =>
    intro es envs
    simp [chainTrace, spawnEvents] at ih ⊢
    exact ih es.tail envs.tail

theorem getLast?_cons_of_ne (a : TCEvent) (l : List TCEvent) (h : l ≠ []) :
    (a :: l).getLast? = l.getLast? := by
  cases l with
  | nil => exact absurd rfl h
  | cons b t => rfl

theorem chainTrace_getLast (cb ul dl : Nat) :
    ∀ (r : List (List Char)) (es : List Int) (envs : List Env),
    (chainTrace cb ul dl r es envs).getLast? =
      some (TCEvent.cbRun cb ErrType.success []) := by
  intro r
  induction r with
  | nil => intro es envs; simp [chainTrace]
  | cons i r' ih =>
    intro es envs
    simp only [chainTrace]
    rw [getLast?_cons_of_ne _ _ (by simp [chainTrace_ne_nil])]
    rw [getLast?_cons_of_ne _ _ (chainTrace_ne_nil cb ul dl r' es.tail envs.tail)]
    exact ih es.tail envs.tail

theorem chainTrace_phases (cb ul dl : Nat) :
    ∀ (r : List (List Char)) (es : List Int) (envs : List Env),
    phases (chainTrace cb ul dl r es envs) =
      false :: (List.replicate r.length [true, false]).flatten := by
  intro r
  induction r with
  | nil => intro es envs; simp [chainTrace, phases]
  | cons i r' ih =>
    intro es envs
    simp [chainTrace, phases, List.replicate_succ] at ih ⊢
    exact ih es.tail envs.tail

theorem spawnEvents_cons_spawn (p : Nat) (cs : List (List Char)) (evs : List TCEvent) :
    spawnEvents (TCEvent.spawn p cs :: evs) = (p, cs) :: spawnEvents evs := by
  simp [spawnEvents]

theorem cbEvents_cons_spawn (p : Nat) (cs : List (List Char)) (evs : List TCEvent) :
    cbEvents (TCEvent.spawn p cs :: evs) = cbEvents evs := by
  simp [cbEvents]

theorem phases_cons_spawn (p : Nat) (cs : List (List Char)) (evs : List TCEvent) :
    phases (TCEvent.spawn p cs :: evs) = true :: phases evs := by
  simp [phases]

/-- C5: an accepted `ThrottleInterfaces` request with N interfaces spawns
exactly N processes; the spawn/exit skeleton strictly alternates (a process
is spawned only after the previous one's exit has been observed, never two
in flight), and the completion callback runs exactly once, as the very last
event, after the N-th exit. -/
theorem chain_spawns_sequentially (s : ThrottlerState) (cb : Nat)
    (ifaces : List (List Char)) (ul dl : Nat) (exits : List Int) (envs : List Env)
    (hpid0 : s.tc_pid = 0) (hcmd0 : s.tc_commands = [])
    (hcur0 : s.tc_current_interface = [])
    (hne : ifaces ≠ []) (hnames : ∀ i ∈ ifaces, i ≠ ([] : List Char))
    (hrate : ¬(ul = 0 ∧ dl = 0))
    (hexits : exits.length = ifaces.length)
    (henvs : envs.length = ifaces.length)
    (hgood : ∀ e ∈ envs, e.pid ≠ 0 ∧ e.fdNonBlockFail = false) :
    ∃ evs,
      runThrottleChain s (some cb) ifaces ul dl exits envs =
        some (true,
          { initState with
              desired_throttling_enabled := true
              desired_upload_rate_kbits := ul
              desired_download_rate_kbits := dl }, evs) ∧
      (spawnEvents evs).length = ifaces.length ∧
      cbEvents evs = [(cb, ErrType.success, ([] : List Char))] ∧
      evs.getLast? = some (TCEvent.cbRun cb ErrType.success []) ∧
      phases evs = (List.replicate ifaces.length [true, false]).flatten := by
  obtain ⟨q, a, rfl⟩ : ∃ q a, ifaces = q ++ [a] := by
    rcases List.eq_nil_or_concat ifaces with h0 | ⟨q, a, h0⟩
    · exact absurd h0 hne
    · exact ⟨q, a, by simpa [List.concat_eq_append] using h0⟩
  cases envs with
  | nil => simp at henvs
  | cons env0 rest =>
    have ha : a ≠ [] := hnames a (by simp)
    have hgood0 := hgood env0 (List.mem_cons_self env0 rest)
    refine ⟨TCEvent.spawn env0.pid (buildThrottleCommands a ul dl)
      :: chainTrace cb ul dl q.reverse exits rest, ?_, ?_, ?_, ?_, ?_⟩
    · unfold runThrottleChain
      dsimp only
      rw [throttleInterfaces_accept s (some cb) q a ul dl env0 hrate hpid0 hcmd0 hcur0 ha hgood0.2]
      dsimp only
      rw [driveExits_chain cb ul dl q.reverse { s with tc_interfaces_to_throttle := q, callback := some cb, tc_current_interface := a, tc_commands := buildThrottleCommands a ul dl, tc_pid := env0.pid, desired_throttling_enabled := true, desired_upload_rate_kbits := ul, desired_download_rate_kbits := dl } exits rest (by simpa using hgood0.1) (by simpa using buildThrottleCommands_ne_nil a ul dl) (by simpa using ha) (by simp) (by simp) (by simp) (by simp) (by simp) (fun j hj => hnames j (by simp only [List.mem_reverse] at hj; exact List.mem_append_left _ hj)) (by simpa using hexits) (by simp at henvs ⊢; omega) (fun x hx => hgood x (List.mem_cons_of_mem env0 hx))]
      simp
    · rw [spawnEvents_cons_spawn]
      simp [chainTrace_spawn_length]
    · rw [cbEvents_cons_spawn]
      exact chainTrace_cbEvents cb ul dl q.reverse exits rest
    · rw [getLast?_cons_of_ne _ _ (chainTrace_ne_nil cb ul dl q.reverse exits rest)]
      exact chainTrace_getLast cb ul dl q.reverse exits rest
    · rw [phases_cons_spawn, chainTrace_phases]
      simp [List.replicate_succ]

/-! ### Claim theorems -/

/-- C1 (amended): when the last-processed interface's tc process exits (the
queue is empty), the completion callback always receives `kSuccess`,
regardless of the exit status — the nonzero-exit `kOperationFailed` is only
computed for the log, never passed to the callback; earlier interfaces'
failures are likewise not surfaced. -/
theorem onProcessExited_final_callback_always_success
    (s : ThrottlerState) (status : Int) (env : Env) (c : Nat)
    (hpid : s.tc_pid ≠ 0) (hcmd : s.tc_commands ≠ [])
    (hcur : s.tc_current_interface ≠ [])
    (hq : s.tc_interfaces_to_throttle = []) (hcb : s.callback = some c) :
    onProcessExited s status env =
      some (clearTCState s,
        [TCEvent.exited status, TCEvent.cbRun c ErrType.success []]) := by
  rw [onProcessExited_last s status env hpid hcmd (by simp [hcur]) hq]
  rw [hcb]
  rfl

/-- C1 witness: a one-interface chain whose process exits with status 1
still reports `kSuccess`. -/
theorem onProcessExited_final_callback_always_success_witness :
    onProcessExited
      { inFlightState with tc_interfaces_to_throttle := [] } 1 { pid := 9, fdNonBlockFail := false } =
      some (clearTCState { inFlightState with tc_interfaces_to_throttle := [] },
        [TCEvent.exited 1, TCEvent.cbRun 1 ErrType.success []]) :=
  onProcessExited_final_callback_always_success
    { inFlightState with tc_interfaces_to_throttle := [] } 1
    { pid := 9, fdNonBlockFail := false } 1
    (by decide) (by decide) (by decide) (by decide) (by decide)

/-- C1 counterexample: a whole accepted chain over `["eth0"]` whose only
process exits with the nonzero status 1 runs the callback with `kSuccess`,
not `kOperationFailed` as the claim states. -/
theorem onProcessExited_nonzero_exit_reports_success :
    (runThrottleChain initState (some 7) [("eth0").toList] 100 200 [1]
        [{ pid := 5, fdNonBlockFail := false }]).map (fun r => cbEvents r.2.2) =
      some [(7, ErrType.success, ([] : List Char))] ∧
    ErrType.success ≠ ErrType.operationFailed := by
  decide

/-- C2 (amended): while a tc process is in flight, a `Throttle` call and an
accepted-rate `ThrottleInterfaces` call both return false and report
`kWrongState`, but — through `Done` — they also clear the in-flight chain's
transient state (pid field, command list, current interface, interface
queue, stored callback), and `ThrottleInterfaces` additionally overwrites
the desired configuration; `DisableThrottlingOnAllInterfaces` does not
report `kWrongState` at all: it dies on `CHECK_EQ(tc_pid_, 0)`. -/
theorem concurrent_call_rejected_but_state_cleared
    (s : ThrottlerState) (cb : Option Nat) (iface : List Char) (ul dl : Nat)
    (env : Env) (deviceIfaces q : List (List Char)) (a : List Char)
    (hpid : s.tc_pid ≠ 0) :
    (throttle s cb iface ul dl env =
      some (false, clearTCState s,
        cbRunEvts cb ErrType.wrongState (("Cannot run concurrent TC operations").toList))) ∧
    (¬(ul = 0 ∧ dl = 0) → a ≠ [] →
      throttleInterfaces s cb (q ++ [a]) ul dl env =
        some (false,
          clearTCState { s with
            desired_throttling_enabled := true
            desired_upload_rate_kbits := ul
            desired_download_rate_kbits := dl },
          cbRunEvts cb ErrType.wrongState (("Cannot run concurrent TC operations").toList))) ∧
    (disableThrottlingOnAllInterfaces s cb deviceIfaces env = none) := by
  refine ⟨?_, ?_, ?_⟩
  · unfold throttle
    rw [if_pos (Or.inl hpid)]
    rfl
  · intro hrate ha
    unfold throttleInterfaces
    rw [if_neg hrate]
    dsimp only
    rw [getNextInterface_concat]
    dsimp only
    rw [if_neg ha]
    unfold throttle
    rw [if_pos (Or.inl (by simpa using hpid))]
    simp [done, clearTCState]
  · unfold disableThrottlingOnAllInterfaces
    unfold startTCForCommands
    dsimp only
    rw [if_pos hpid]

/-- C2 witness: the three rejection behaviours at the representative
in-flight state. -/
theorem concurrent_call_rejected_but_state_cleared_witness :
    (throttle inFlightState (some 2) (("eth1").toList) 1000 500
        { pid := 9, fdNonBlockFail := false } =
      some (false, clearTCState inFlightState,
        cbRunEvts (some 2) ErrType.wrongState
          (("Cannot run concurrent TC operations").toList))) ∧
    (throttleInterfaces inFlightState (some 2) ([] ++ [("eth1").toList]) 1000 500
        { pid := 9, fdNonBlockFail := false } =
      some (false,
        clearTCState { inFlightState with
          desired_throttling_enabled := true
          desired_upload_rate_kbits := 1000
          desired_download_rate_kbits := 500 },
        cbRunEvts (some 2) ErrType.wrongState
          (("Cannot run concurrent TC operations").toList))) ∧
    (disableThrottlingOnAllInterfaces inFlightState (some 3) [("eth0").toList]
        { pid := 9, fdNonBlockFail := false } = none) :=
  ⟨(concurrent_call_rejected_but_state_cleared inFlightState (some 2) (("eth1").toList)
      1000 500 { pid := 9, fdNonBlockFail := false } [("eth0").toList] [] (("eth1").toList)
      (by decide)).1,
   (concurrent_call_rejected_but_state_cleared inFlightState (some 2) (("eth1").toList)
      1000 500 { pid := 9, fdNonBlockFail := false } [("eth0").toList] [] (("eth1").toList)
      (by decide)).2.1 (by decide) (by decide),
   (concurrent_call_rejected_but_state_cleared inFlightState (some 2) (("eth1").toList)
      1000 500 { pid := 9, fdNonBlockFail := false } [("eth0").toList] [] (("eth1").toList)
      (by decide)).2.2⟩

/-- C2 counterexample: at the representative in-flight state, a second
`Throttle` call does return false with `kWrongState`, but the in-flight
chain's state is destroyed rather than left unaltered (queue emptied, pid
zeroed, callback dropped), and `DisableThrottlingOnAllInterfaces` aborts on
its `CHECK` instead of reporting `kWrongState`. -/
theorem concurrent_call_wipes_inflight_state :
    (throttle inFlightState (some 2) (("eth1").toList) 1000 500
        { pid := 9, fdNonBlockFail := false } =
      some (false, clearTCState inFlightState,
        [TCEvent.cbRun 2 ErrType.wrongState
          (("Cannot run concurrent TC operations").toList)])) ∧
    inFlightState.tc_interfaces_to_throttle ≠ [] ∧
    (clearTCState inFlightState).tc_interfaces_to_throttle = [] ∧
    inFlightState.callback = some 1 ∧
    (clearTCState inFlightState).callback = none ∧
    inFlightState.tc_pid = 42 ∧
    (clearTCState inFlightState).tc_pid = 0 ∧
    (disableThrottlingOnAllInterfaces inFlightState (some 3) [("eth0").toList]
      { pid := 9, fdNonBlockFail := false } = none) := by
  refine ⟨?_, by decide, by decide, by decide, by decide, by decide, by decide, by decide⟩
  decide

/-- C3 (amended): `ThrottleInterfaces` with both rates zero synchronously
runs the callback exactly once with `kInvalidArguments`, returns false,
spawns nothing, never consults the device interface list or the
environment, and leaves the desired configuration untouched — but through
`Done` it resets the transient tc state (a no-op only when the Throttler is
idle). -/
theorem zero_rates_rejected_invalid_arguments
    (s : ThrottlerState) (c : Nat) (ifaces ifaces2 : List (List Char)) (env env2 : Env) :
    (throttleInterfaces s (some c) ifaces 0 0 env =
      some (false, clearTCState s,
        [TCEvent.cbRun c ErrType.invalidArguments
          (("One of download/upload rates should be set").toList)])) ∧
    ((clearTCState s).desired_throttling_enabled = s.desired_throttling_enabled ∧
     (clearTCState s).desired_upload_rate_kbits = s.desired_upload_rate_kbits ∧
     (clearTCState s).desired_download_rate_kbits = s.desired_download_rate_kbits) ∧
    throttleInterfaces s (some c) ifaces 0 0 env =
      throttleInterfaces s (some c) ifaces2 0 0 env2 := by
  refine ⟨?_, by simp [clearTCState], ?_⟩
  · unfold throttleInterfaces
    rw [if_pos ⟨rfl, rfl⟩]
    rfl
  · unfold throttleInterfaces
    rw [if_pos ⟨rfl, rfl⟩, if_pos ⟨rfl, rfl⟩]

/-- C3 counterexample: called with both rates zero at the representative
in-flight state, `ThrottleInterfaces` does reject with `kInvalidArguments`,
but it does not leave the state untouched: the in-flight chain's transient
state is cleared. -/
theorem zero_rates_clear_inflight_state :
    (throttleInterfaces inFlightState (some 2) [("eth0").toList] 0 0
        { pid := 9, fdNonBlockFail := false } =
      some (false, clearTCState inFlightState,
        [TCEvent.cbRun 2 ErrType.invalidArguments
          (("One of download/upload rates should be set").toList)])) ∧
    inFlightState.tc_pid = 42 ∧
    (clearTCState inFlightState).tc_pid = 0 ∧
    inFlightState.tc_interfaces_to_throttle ≠ [] ∧
    (clearTCState inFlightState).tc_interfaces_to_throttle = [] ∧
    clearTCState inFlightState ≠ inFlightState := by
  refine ⟨?_, by decide, by decide, by decide, by decide, by decide⟩
  decide

/-- C4 (amended): for every sanitized interface name (no dollar sign, per
the documented precondition) and nonzero rates, the command list built by
`Throttle` is exactly, in order: 2 clean-up lines, 3 uplink lines, 2
downlink lines, with `${INTERFACE}` replaced by the name, `${ULRATE}` and
`${DLRATE}` by the decimal rate followed by "kbit", and `${BURST}` by the
decimal value of `2 × download_rate_kbits` computed in `uint32_t`
arithmetic, i.e. reduced modulo `2 ^ 32`; no dollar sign and in particular
no literal "${" remains in any line. -/
theorem throttle_command_list_exact (iface : List Char) (ul dl : Nat)
    (hul : ul ≠ 0) (hdl : dl ≠ 0) (hif : ('$' : Char) ∉ iface) :
    buildThrottleCommands iface ul dl =
      [("qdisc del dev ").toList ++ (iface ++ (" root\n").toList),
       ("qdisc del dev ").toList ++ (iface ++ (" ingress\n").toList),
       ("qdisc add dev ").toList ++ (iface ++ (" root handle 1: htb default 11\n").toList),
       ("class add dev ").toList ++ (iface ++ ((" parent 1: classid 1:1 htb rate ").toList
          ++ (decimal ul ++ (("kbit").toList ++ ("\n").toList)))),
       ("class add dev ").toList ++ (iface ++ ((" parent 1:1 classid 1:11 htb rate ").toList
          ++ (decimal ul ++ (("kbit").toList ++ (" prio 0 quantum 300\n").toList)))),
       ("qdisc add dev ").toList ++ (iface ++ (" handle ffff: ingress\n").toList),
       ("filter add dev ").toList ++ (iface
          ++ ((" parent ffff: protocol all  prio 50 u32 match ip src 0.0.0.0/0 police rate ").toList
            ++ (decimal dl ++ (("kbit").toList
              ++ ((" burst ").toList
                ++ (decimal ((dl * 2) % (2 ^ 32)) ++ ("k mtu 66000 drop flowid :1\n").toList))))))] ∧
    ∀ l ∈ buildThrottleCommands iface ul dl,
      ('$' : Char) ∉ l ∧ occursIn (("$\x7b").toList) l = false :=
  ⟨buildThrottleCommands_expand iface ul dl hul hdl hif,
   fun l hl =>
     ⟨no_dollar_lines iface ul dl hul hdl hif l hl,
      occursIn_dollar_free (("$\x7b").toList) (by decide) l
        (no_dollar_lines iface ul dl hul hdl hif l hl)⟩⟩

/-- C4 witness: the exact expansion for interface "eth0" with rates 1 and 2. -/
theorem throttle_command_list_exact_witness :
    buildThrottleCommands (("eth0").toList) 1 2 =
      [("qdisc del dev ").toList ++ ((("eth0").toList) ++ (" root\n").toList),
       ("qdisc del dev ").toList ++ ((("eth0").toList) ++ (" ingress\n").toList),
       ("qdisc add dev ").toList ++ ((("eth0").toList) ++ (" root handle 1: htb default 11\n").toList),
       ("class add dev ").toList ++ ((("eth0").toList) ++ ((" parent 1: classid 1:1 htb rate ").toList
          ++ (decimal 1 ++ (("kbit").toList ++ ("\n").toList)))),
       ("class add dev ").toList ++ ((("eth0").toList) ++ ((" parent 1:1 classid 1:11 htb rate ").toList
          ++ (decimal 1 ++ (("kbit").toList ++ (" prio 0 quantum 300\n").toList)))),
       ("qdisc add dev ").toList ++ ((("eth0").toList) ++ (" handle ffff: ingress\n").toList),
       ("filter add dev ").toList ++ ((("eth0").toList)
          ++ ((" parent ffff: protocol all  prio 50 u32 match ip src 0.0.0.0/0 police rate ").toList
            ++ (decimal 2 ++ (("kbit").toList
              ++ ((" burst ").toList
                ++ (decimal ((2 * 2) % (2 ^ 32)) ++ ("k mtu 66000 drop flowid :1\n").toList))))))] ∧
    ∀ l ∈ buildThrottleCommands (("eth0").toList) 1 2,
      ('$' : Char) ∉ l ∧ occursIn (("$\x7b").toList) l = false :=
  throttle_command_list_exact (("eth0").toList) 1 2 (by decide) (by decide) (by decide)

set_option maxRecDepth 8192 in
/-- C4 counterexample: with `download_rate_kbits = 2 ^ 31` the burst value
written is the wrapped `uint32_t` product 0, not the mathematical
`2 × download_rate_kbits = 4294967296` the claim requires: no line contains
"4294967296", and the downlink filter line contains " burst 0k". -/
theorem burst_uint32_wraparound :
    (2147483648 * 2 = (4294967296 : Nat)) ∧
    ((buildThrottleCommands (("eth0").toList) 1 2147483648).all
      (fun l => !(occursIn (("4294967296").toList) l)) = true) ∧
    occursIn ((" burst 0k").toList)
      ((buildThrottleCommands (("eth0").toList) 1 2147483648).getLastD []) = true := by
  refine ⟨by norm_num, by decide, by decide⟩

/-- C5 witness: the two-interface scenario; both processes exit 0. -/
theorem chain_spawns_sequentially_witness :
    ∃ evs,
      runThrottleChain initState (some 1) [("eth0").toList, ("wlan0").toList] 1000 500 [0, 0]
          [{ pid := 5, fdNonBlockFail := false }, { pid := 6, fdNonBlockFail := false }] =
        some (true,
          { initState with
              desired_throttling_enabled := true
              desired_upload_rate_kbits := 1000
              desired_download_rate_kbits := 500 }, evs) ∧
      (spawnEvents evs).length = ([("eth0").toList, ("wlan0").toList] : List (List Char)).length ∧
      cbEvents evs = [(1, ErrType.success, ([] : List Char))] ∧
      evs.getLast? = some (TCEvent.cbRun 1 ErrType.success []) ∧
      phases evs =
        (List.replicate ([("eth0").toList, ("wlan0").toList] : List (List Char)).length
          [true, false]).flatten :=
  chain_spawns_sequentially initState 1 [("eth0").toList, ("wlan0").toList] 1000 500 [0, 0]
    [{ pid := 5, fdNonBlockFail := false }, { pid := 6, fdNonBlockFail := false }]
    rfl rfl rfl (by decide) (by decide) (by decide) (by decide) (by decide) (by decide)

set_option maxRecDepth 8192 in
/-- C6: the interface queue is a stack — `GetNextInterface` pops the
last-added entry — and concretely, a chain over the device list
`["eth0", "wlan0"]` spawns tc for "wlan0" first and "eth0" second. -/
theorem interface_queue_lifo :
    (∀ (q : List (List Char)) (a : List Char), getNextInterface (q ++ [a]) = (a, q)) ∧
    getNextInterface [] = ([], []) ∧
    (runThrottleChain initState (some 1) [("eth0").toList, ("wlan0").toList] 1000 500
        [0, 0] [{ pid := 5, fdNonBlockFail := false }, { pid := 6, fdNonBlockFail := false }]).map
        (fun r => spawnEvents r.2.2) =
      some [(5, buildThrottleCommands (("wlan0").toList) 1000 500),
            (6, buildThrottleCommands (("eth0").toList) 1000 500)] :=
  ⟨getNextInterface_concat, rfl, by decide⟩

/-- C7: `ApplyThrottleToNewInterface` is a state-less no-op returning false
when throttling is not desired; appends to the back of the queue and
returns true when a process is in flight; and otherwise calls the
single-interface `Throttle` with a null callback and the recorded desired
rates (spawning immediately from a consistent idle state). -/
theorem applyThrottleToNewInterface_correct (s : ThrottlerState) (iface : List Char) (env : Env) :
    (s.desired_throttling_enabled = false →
      applyThrottleToNewInterface s iface env = some (false, s, [])) ∧
    (s.desired_throttling_enabled = true → s.tc_pid ≠ 0 →
      applyThrottleToNewInterface s iface env =
        some (true,
          { s with tc_interfaces_to_throttle := s.tc_interfaces_to_throttle ++ [iface] }, [])) ∧
    (s.desired_throttling_enabled = true → s.tc_pid = 0 →
      applyThrottleToNewInterface s iface env =
        throttle s none iface s.desired_upload_rate_kbits s.desired_download_rate_kbits env) ∧
    (s.desired_throttling_enabled = true → s.tc_pid = 0 → s.tc_commands = [] →
      s.tc_current_interface = [] → env.fdNonBlockFail = false →
      applyThrottleToNewInterface s iface env =
        some (true,
          { s with
              callback := none
              tc_current_interface := iface
              tc_commands := buildThrottleCommands iface s.desired_upload_rate_kbits
                s.desired_download_rate_kbits
              tc_pid := env.pid },
          [TCEvent.spawn env.pid (buildThrottleCommands iface s.desired_upload_rate_kbits
            s.desired_download_rate_kbits)])) := by
  refine ⟨?_, ?_, ?_, ?_⟩
  · intro hd
    unfold applyThrottleToNewInterface
    rw [if_pos hd]
  · intro hd hp
    unfold applyThrottleToNewInterface
    rw [if_neg (by simp [hd]), if_pos hp]
  · intro hd hp
    unfold applyThrottleToNewInterface
    rw [if_neg (by simp [hd]), if_neg (by simp [hp])]
  · intro hd hp hc hcur hfd
    unfold applyThrottleToNewInterface
    rw [if_neg (by simp [hd]), if_neg (by simp [hp])]
    unfold throttle
    rw [if_neg (by simp [hp, hc, hcur])]
    unfold startTCForCommands
    rw [if_neg (by simp [hp])]
    rw [if_neg (by simp [hfd])]

/-- C7 witness: the three behaviours at concrete states. -/
theorem applyThrottleToNewInterface_correct_witness :
    (applyThrottleToNewInterface initState (("eth2").toList)
        { pid := 5, fdNonBlockFail := false } = some (false, initState, [])) ∧
    (applyThrottleToNewInterface inFlightState (("eth2").toList)
        { pid := 5, fdNonBlockFail := false } =
      some (true,
        { inFlightState with
            tc_interfaces_to_throttle := inFlightState.tc_interfaces_to_throttle
              ++ [("eth2").toList] }, [])) ∧
    (applyThrottleToNewInterface
        { initState with
            desired_throttling_enabled := true
            desired_upload_rate_kbits := 1000
            desired_download_rate_kbits := 500 }
        (("eth2").toList) { pid := 5, fdNonBlockFail := false } =
      some (true,
        { initState with
            desired_throttling_enabled := true
            desired_upload_rate_kbits := 1000
            desired_download_rate_kbits := 500
            callback := none
            tc_current_interface := ("eth2").toList
            tc_commands := buildThrottleCommands (("eth2").toList) 1000 500
            tc_pid := 5 },
        [TCEvent.spawn 5 (buildThrottleCommands (("eth2").toList) 1000 500)])) :=
  ⟨(applyThrottleToNewInterface_correct initState (("eth2").toList)
      { pid := 5, fdNonBlockFail := false }).1 rfl,
   (applyThrottleToNewInterface_correct inFlightState (("eth2").toList)
      { pid := 5, fdNonBlockFail := false }).2.1 rfl (by decide),
   (applyThrottleToNewInterface_correct
      { initState with
          desired_throttling_enabled := true
          desired_upload_rate_kbits := 1000
          desired_download_rate_kbits := 500 }
      (("eth2").toList) { pid := 5, fdNonBlockFail := false }).2.2.2 rfl rfl rfl rfl rfl⟩

/-- C8 (amended): provided at least one rate is nonzero, an empty device
interface list makes `ThrottleInterfaces` synchronously run the callback
once with `kOperationFailed` and the no-interfaces message, return false,
and spawn nothing. -/
theorem empty_interface_list_fails_operation (s : ThrottlerState) (c : Nat)
    (ul dl : Nat) (env : Env) (hrate : ¬(ul = 0 ∧ dl = 0)) :
    throttleInterfaces s (some c) [] ul dl env =
      some (false, clearTCState s,
        [TCEvent.cbRun c ErrType.operationFailed
          (("No interfaces available for throttling").toList)]) := by
  unfold throttleInterfaces
  rw [if_neg hrate]
  dsimp only
  rw [getNextInterface_nil]
  dsimp only
  rw [if_pos rfl]
  simp [done, clearTCState, cbRunEvts]

/-- C8 witness: the empty-list rejection with nonzero rates. -/
theorem empty_interface_list_fails_operation_witness :
    throttleInterfaces initState (some 2) [] 1000 500 { pid := 5, fdNonBlockFail := false } =
      some (false, clearTCState initState,
        [TCEvent.cbRun 2 ErrType.operationFailed
          (("No interfaces available for throttling").toList)]) :=
  empty_interface_list_fails_operation initState 2 1000 500
    { pid := 5, fdNonBlockFail := false } (by decide)

/-- C8 counterexample: with both rates zero and an empty device list, the
callback receives `kInvalidArguments` — the zero-rate check runs first — so
the claim's unconditional `kOperationFailed` is wrong. -/
theorem empty_list_zero_rates_invalid_arguments :
    (throttleInterfaces initState (some 2) [] 0 0 { pid := 5, fdNonBlockFail := false } =
      some (false, clearTCState initState,
        [TCEvent.cbRun 2 ErrType.invalidArguments
          (("One of download/upload rates should be set").toList)])) ∧
    ErrType.invalidArguments ≠ ErrType.operationFailed := by
  decide

/-- C9: `Throttle` performs no rate validation of its own — called directly
with both rates zero from an idle state it builds just the two clean-up
commands and still spawns a tc process. -/
theorem throttle_zero_rates_no_validation (s : ThrottlerState) (c : Nat)
    (iface : List Char) (env : Env)
    (hpid : s.tc_pid = 0) (hcmd : s.tc_commands = [])
    (hcur : s.tc_current_interface = []) (hfd : env.fdNonBlockFail = false) :
    buildThrottleCommands iface 0 0 =
      [("qdisc del dev ").toList ++ (iface ++ (" root\n").toList),
       ("qdisc del dev ").toList ++ (iface ++ (" ingress\n").toList)] ∧
    throttle s (some c) iface 0 0 env =
      some (true,
        { s with
            callback := some c
            tc_current_interface := iface
            tc_commands := buildThrottleCommands iface 0 0
            tc_pid := env.pid },
        [TCEvent.spawn env.pid (buildThrottleCommands iface 0 0)]) := by
  refine ⟨buildThrottleCommands_zero iface, ?_⟩
  unfold throttle
  rw [if_neg (by simp [hpid, hcmd, hcur])]
  unfold startTCForCommands
  rw [if_neg (by simp [hpid])]
  rw [if_neg (by simp [hfd])]

/-- C9 witness: `Throttle(some 3, "eth0", 0, 0)` from the initial state. -/
theorem throttle_zero_rates_no_validation_witness :
    buildThrottleCommands (("eth0").toList) 0 0 =
      [("qdisc del dev ").toList ++ ((("eth0").toList) ++ (" root\n").toList),
       ("qdisc del dev ").toList ++ ((("eth0").toList) ++ (" ingress\n").toList)] ∧
    throttle initState (some 3) (("eth0").toList) 0 0 { pid := 5, fdNonBlockFail := false } =
      some (true,
        { initState with
            callback := some 3
            tc_current_interface := ("eth0").toList
            tc_commands := buildThrottleCommands (("eth0").toList) 0 0
            tc_pid := 5 },
        [TCEvent.spawn 5 (buildThrottleCommands (("eth0").toList) 0 0)]) :=
  throttle_zero_rates_no_validation initState 3 (("eth0").toList)
    { pid := 5, fdNonBlockFail := false } rfl rfl rfl rfl

/-- C10: the desired configuration survives `ClearTCState` and `Done` (so it
survives every failed or completed chain); `DisableThrottlingOnAllInterfaces`
resets it (via `ClearThrottleStatus`) only when its tc start succeeded; and
with no process in flight, `ApplyThrottleToNewInterface` throttles with the
previously recorded desired rates. -/
theorem desired_config_survives_done (s : ThrottlerState) (cb : Option Nat)
    (t : ErrType) (m : List Char) (ifaces : List (List Char)) (i : List Char) (env : Env) :
    ((clearTCState s).desired_throttling_enabled = s.desired_throttling_enabled ∧
     (clearTCState s).desired_upload_rate_kbits = s.desired_upload_rate_kbits ∧
     (clearTCState s).desired_download_rate_kbits = s.desired_download_rate_kbits) ∧
    ((done s cb t m).1.desired_throttling_enabled = s.desired_throttling_enabled ∧
     (done s cb t m).1.desired_upload_rate_kbits = s.desired_upload_rate_kbits ∧
     (done s cb t m).1.desired_download_rate_kbits = s.desired_download_rate_kbits) ∧
    (s.tc_pid = 0 → env.fdNonBlockFail = true →
      ∃ s2 evs, disableThrottlingOnAllInterfaces s cb ifaces env = some (false, s2, evs) ∧
        s2.desired_throttling_enabled = s.desired_throttling_enabled ∧
        s2.desired_upload_rate_kbits = s.desired_upload_rate_kbits ∧
        s2.desired_download_rate_kbits = s.desired_download_rate_kbits) ∧
    (s.tc_pid = 0 → env.fdNonBlockFail = false →
      ∃ s2 evs, disableThrottlingOnAllInterfaces s cb ifaces env = some (true, s2, evs) ∧
        s2.desired_throttling_enabled = false ∧
        s2.desired_upload_rate_kbits = 0 ∧
        s2.desired_download_rate_kbits = 0) ∧
    (s.desired_throttling_enabled = true → s.tc_pid = 0 →
      applyThrottleToNewInterface s i env =
        throttle s none i s.desired_upload_rate_kbits s.desired_download_rate_kbits env) := by
  refine ⟨by simp [clearTCState], by simp [done, clearTCState], ?_, ?_, ?_⟩
  · intro hp hf
    unfold disableThrottlingOnAllInterfaces startTCForCommands
    dsimp only
    rw [if_neg (by simp [hp]), if_pos (by simp [hf])]
    exact ⟨_, _, rfl, rfl, rfl, rfl⟩
  · intro hp hf
    unfold disableThrottlingOnAllInterfaces startTCForCommands
    dsimp only
    rw [if_neg (by simp [hp]), if_neg (by simp [hf])]
    exact ⟨_, _, rfl, rfl, rfl, rfl⟩
  · intro hd hp
    unfold applyThrottleToNewInterface
    rw [if_neg (by simp [hd]), if_neg (by simp [hp])]

/-- C10 witness: at a concrete desiring state, a failed disable keeps the
desired rates, a successful disable clears them, and an idle apply call
equals a `Throttle` with the recorded rates. -/
theorem desired_config_survives_done_witness :
    ((clearTCState { initState with
        desired_throttling_enabled := true
        desired_upload_rate_kbits := 7
        desired_download_rate_kbits := 8 }).desired_upload_rate_kbits = 7) ∧
    (∃ s2 evs, disableThrottlingOnAllInterfaces
        { initState with
          desired_throttling_enabled := true
          desired_upload_rate_kbits := 7
          desired_download_rate_kbits := 8 }
        (some 4) [("eth0").toList] { pid := 5, fdNonBlockFail := true } =
          some (false, s2, evs) ∧
        s2.desired_throttling_enabled = true ∧
        s2.desired_upload_rate_kbits = 7 ∧
        s2.desired_download_rate_kbits = 8) ∧
    (∃ s2 evs, disableThrottlingOnAllInterfaces
        { initState with
          desired_throttling_enabled := true
          desired_upload_rate_kbits := 7
          desired_download_rate_kbits := 8 }
        (some 4) [("eth0").toList] { pid := 5, fdNonBlockFail := false } =
          some (true, s2, evs) ∧
        s2.desired_throttling_enabled = false ∧
        s2.desired_upload_rate_kbits = 0 ∧
        s2.desired_download_rate_kbits = 0) ∧
    (applyThrottleToNewInterface
        { initState with
          desired_throttling_enabled := true
          desired_upload_rate_kbits := 7
          desired_download_rate_kbits := 8 }
        (("eth2").toList) { pid := 5, fdNonBlockFail := false } =
      throttle
        { initState with
          desired_throttling_enabled := true
          desired_upload_rate_kbits := 7
          desired_download_rate_kbits := 8 }
        none (("eth2").toList) 7 8 { pid := 5, fdNonBlockFail := false }) := by
  refine ⟨?_, ?_, ?_, ?_⟩
  · exact (desired_config_survives_done
      { initState with
        desired_throttling_enabled := true
        desired_upload_rate_kbits := 7
        desired_download_rate_kbits := 8 }
      (some 4) ErrType.success [] [("eth0").toList] (("eth2").toList)
      { pid := 5, fdNonBlockFail := true }).1.2.1
  · have h := (desired_config_survives_done
      { initState with
        desired_throttling_enabled := true
        desired_upload_rate_kbits := 7
        desired_download_rate_kbits := 8 }
      (some 4) ErrType.success [] [("eth0").toList] (("eth2").toList)
      { pid := 5, fdNonBlockFail := true }).2.2.1 rfl rfl
    simpa using h
  · have h := (desired_config_survives_done
      { initState with
        desired_throttling_enabled := true
        desired_upload_rate_kbits := 7
        desired_download_rate_kbits := 8 }
      (some 4) ErrType.success [] [("eth0").toList] (("eth2").toList)
      { pid := 5, fdNonBlockFail := false }).2.2.2.1 rfl rfl
    simpa using h
  · exact (desired_config_survives_done
      { initState with
        desired_throttling_enabled := true
        desired_upload_rate_kbits := 7
        desired_download_rate_kbits := 8 }
      (some 4) ErrType.success [] [("eth0").toList] (("eth2").toList)
      { pid := 5, fdNonBlockFail := false }).2.2.2.2 rfl rfl

end ShillThrottler
